import Mathlib

/-!
Verification development for the PAL queue-context and pipeline-interface core.

Shallow embedding of:
  - src/src/core/queueContext.cpp : QueueContext::~QueueContext,
    QueueContext::PreProcessSubmit, QueueContext::CreateTimestampMem;
  - src/inc/core/palPipeline.h : the IPipeline client-data accessors (the only
    concrete code in the header) and, modelled from the spec, the documented
    contracts of QueryAllocationInfo and LinkWithLibraries whose
    implementations are not part of the visible sources.

External collaborators (the memory manager, the mapping of GPU memory) are
modelled by an environment record describing the outcome of each call, so the
code's control flow over those outcomes is embedded exactly.
-/

/-- Result codes surfaced by this core (see the error taxonomy in
src/inc/core/palPipeline.h and the Result values propagated by
QueueContext::CreateTimestampMem). ErrorUnknown stands for any other
non-success code an external collaborator may return. -/
inductive Result
  | Success
  | ErrorInvalidValue
  | ErrorInvalidPointer
  | ErrorUnavailable
  | ErrorBadPipelineData
  | ErrorOutOfGpuMemory
  | ErrorUnknown
  deriving DecidableEq

/-- GPU heap selectors used by QueueContext::CreateTimestampMem
(queueContext.cpp lines 78-79). -/
inductive GpuHeap
  | GpuHeapLocal
  | GpuHeapInvisible
  | GpuHeapGartUswc
  | GpuHeapGartCacheable
  deriving DecidableEq

/-- GPU memory priority levels; CreateTimestampMem uses Normal
(queueContext.cpp line 76). -/
inductive GpuMemPriority
  | VeryLow
  | Low
  | Normal
  | High
  | VeryHigh
  deriving DecidableEq

/-- Virtual-address range selectors; CreateTimestampMem uses Default
(queueContext.cpp line 77). -/
inductive VaRange
  | Default
  | DescriptorTable
  | ShadowDescriptorTable
  deriving DecidableEq

/-- The GpuMemoryCreateInfo fields that QueueContext::CreateTimestampMem fills
in (queueContext.cpp lines 73-80).  The heaps array is embedded as the list of
its first heapCount entries. -/
structure GpuMemoryCreateInfo where
  alignment : Nat
  size : Nat
  priority : GpuMemPriority
  vaRange : VaRange
  heaps : List GpuHeap
  heapCount : Nat
  deriving DecidableEq

/-- The GpuMemoryInternalCreateInfo flag that QueueContext::CreateTimestampMem
sets (queueContext.cpp lines 82-83). -/
structure GpuMemoryInternalCreateInfo where
  alwaysResident : Bool
  deriving DecidableEq

/-- The allocation request built by CreateTimestampMem, translated field by
field from queueContext.cpp lines 73-80: 4-byte alignment, size 8 when the
wait-for-idle timestamp is needed and 4 otherwise, normal priority, default
VA range, heaps[0] local then heaps[1] GART-USWC, heapCount 2. -/
def timestampCreateInfo (needWaitForIdleMem : Bool) : GpuMemoryCreateInfo :=
  { alignment := 4
    size := if needWaitForIdleMem then 8 else 4
    priority := GpuMemPriority.Normal
    vaRange := VaRange.Default
    heaps := [GpuHeap.GpuHeapLocal, GpuHeap.GpuHeapGartUswc]
    heapCount := 2 }

/-- The internal-info record built by CreateTimestampMem (queueContext.cpp
lines 82-83): only the always-resident flag is set. -/
def timestampInternalCreateInfo : GpuMemoryInternalCreateInfo :=
  { alwaysResident := true }

/-- Modelled from the spec (section 3, Bound GPU Memory): the helper class
binding a GpuMemory handle and a byte offset is not under src; per the spec it
pairs an allocation handle with an offset, and the unbound state is the null
handle.  A handle is embedded as Nat, nullptr as none. -/
structure BoundGpuMemory where
  memory : Option Nat
  offset : Nat
  deriving DecidableEq

/-- IsBound reports whether the binding references any allocation (null check
on the handle, per spec section 3). -/
def BoundGpuMemory.IsBound (b : BoundGpuMemory) : Bool :=
  b.memory.isSome

/-- Update rebinds to the given handle and offset (spec section 3; used at
queueContext.cpp lines 41, 50, 91, 95). -/
def BoundGpuMemory.Update (b : BoundGpuMemory) (m : Option Nat) (o : Nat) :
    BoundGpuMemory :=
  ⟨m, o⟩

/-- The QueueContext timestamp state: the two BoundGpuMemory slots
m_exclusiveExecTs and m_waitForIdleTs (spec section 3, Queue Context state). -/
structure QueueContext where
  exclusiveExecTs : BoundGpuMemory
  waitForIdleTs : BoundGpuMemory
  deriving DecidableEq

/-- A freshly constructed QueueContext: both timestamp slots unbound
(spec section 4.2 state machine, Uninitialized). -/
def QueueContext.initial : QueueContext :=
  ⟨⟨none, 0⟩, ⟨none, 0⟩⟩

/-- Modelled from the spec (sections 2 and 6, Memory Manager): the outcome of
the external memory-manager and mapping calls that CreateTimestampMem makes.
allocResult, allocHandle and allocOffset describe AllocateGpuMem's return;
initMem gives the byte contents of the backing memory before the call
(indexed by absolute byte offset); mapResult and unmapResult describe the
Map and Unmap outcomes. -/
structure MemMgrEnv where
  allocResult : Result
  allocHandle : Nat
  allocOffset : Nat
  initMem : Nat → Nat
  mapResult : Result
  unmapResult : Result

/-- The externally visible calls CreateTimestampMem makes, in order: the one
AllocateGpuMem request, the Map call, the zero store, the Unmap call. -/
inductive TsEvent
  | alloc (info : GpuMemoryCreateInfo) (internal : GpuMemoryInternalCreateInfo)
  | map
  | write64
  | write32
  | unmap
  deriving DecidableEq

/-- Recognizer for the allocation events in a trace. -/
def TsEvent.isAlloc : TsEvent → Bool
  | TsEvent.alloc _ _ => true
  | _ => false

/-- A 32-bit zero store at byte offset o: bytes o .. o+3 become zero
(queueContext.cpp line 109). -/
def write32zero (m : Nat → Nat) (o : Nat) : Nat → Nat :=
  fun i => if o ≤ i ∧ i < o + 4 then 0 else m i

/-- A 64-bit zero store at byte offset o: bytes o .. o+7 become zero
(queueContext.cpp line 105). -/
def write64zero (m : Nat → Nat) (o : Nat) : Nat → Nat :=
  fun i => if o ≤ i ∧ i < o + 8 then 0 else m i

/-- The little-endian 32-bit value read from bytes o .. o+3. -/
def read32 (m : Nat → Nat) (o : Nat) : Nat :=
  m o + 256 * m (o + 1) + 256 ^ 2 * m (o + 2) + 256 ^ 3 * m (o + 3)

/-- The full outcome of one CreateTimestampMem call: the new timestamp state,
the backing memory contents afterwards, the returned Result, and the trace of
external calls made. -/
structure CtmOutcome where
  ctx : QueueContext
  mem : Nat → Nat
  res : Result
  events : List TsEvent

/-- QueueContext::CreateTimestampMem, translated from queueContext.cpp lines
69-117.  Builds the allocation request, calls AllocateGpuMem; on success binds
m_exclusiveExecTs at the returned offset and, if needWaitForIdleMem, binds
m_waitForIdleTs at that offset plus sizeof(uint32); then maps the exclusive
timestamp and on success writes a 64-bit zero (both timestamps) or a 32-bit
zero (exclusive only) through the mapped pointer and unmaps.  The returned
Result is the allocation result when the allocation failed, else the map
result when mapping failed, else the unmap result. -/
def QueueContext.CreateTimestampMem (qc : QueueContext) (env : MemMgrEnv)
    (needWaitForIdleMem : Bool) : CtmOutcome :=
  let createInfo := timestampCreateInfo needWaitForIdleMem
  let internalInfo := timestampInternalCreateInfo
  if env.allocResult = Result.Success then
    let qc1 : QueueContext :=
      { qc with exclusiveExecTs :=
          qc.exclusiveExecTs.Update (some env.allocHandle) env.allocOffset }
    let qc2 : QueueContext :=
      if needWaitForIdleMem then
        { qc1 with waitForIdleTs :=
            qc1.waitForIdleTs.Update (some env.allocHandle) (env.allocOffset + 4) }
      else qc1
    if env.mapResult = Result.Success then
      if needWaitForIdleMem then
        { ctx := qc2
          mem := write64zero env.initMem env.allocOffset
          res := env.unmapResult
          events := [TsEvent.alloc createInfo internalInfo, TsEvent.map,
            TsEvent.write64, TsEvent.unmap] }
      else
        { ctx := qc2
          mem := write32zero env.initMem env.allocOffset
          res := env.unmapResult
          events := [TsEvent.alloc createInfo internalInfo, TsEvent.map,
            TsEvent.write32, TsEvent.unmap] }
    else
      { ctx := qc2
        mem := env.initMem
        res := env.mapResult
        events := [TsEvent.alloc createInfo internalInfo, TsEvent.map] }
  else
    { ctx := qc
      mem := env.initMem
      res := env.allocResult
      events := [TsEvent.alloc createInfo internalInfo] }

/-- The outcome of running the QueueContext destructor: the final (unbound)
state, and the list of FreeGpuMem calls made, each recording the handle and
offset passed. -/
structure DtorOutcome where
  ctx : QueueContext
  freeCalls : List (Option Nat × Nat)

/-- QueueContext::~QueueContext, translated from queueContext.cpp lines 37-52:
if the wait-for-idle timestamp is bound it is unbound via Update(nullptr, 0);
then, if the exclusive-exec timestamp is bound, FreeGpuMem is called once with
its handle and offset and it is unbound via Update(nullptr, 0). -/
def QueueContext.destroy (qc : QueueContext) : DtorOutcome :=
  let qc1 : QueueContext :=
    if qc.waitForIdleTs.IsBound then
      { qc with waitForIdleTs := qc.waitForIdleTs.Update none 0 }
    else qc
  if qc1.exclusiveExecTs.IsBound then
    { ctx := { qc1 with exclusiveExecTs := qc1.exclusiveExecTs.Update none 0 }
      freeCalls := [(qc1.exclusiveExecTs.memory, qc1.exclusiveExecTs.offset)] }
  else
    { ctx := qc1, freeCalls := [] }

/-- The PAL_ASSERT inside the destructor (queueContext.cpp line 44): whenever
the wait-for-idle timestamp is bound, the exclusive-exec timestamp must be
bound too. -/
def QueueContext.destroyAssertOk (qc : QueueContext) : Prop :=
  qc.waitForIdleTs.IsBound = true → qc.exclusiveExecTs.IsBound = true

/-- The QueueContext states reachable through its operations: the freshly
constructed state, closed under CreateTimestampMem with any external outcome
and any needWaitForIdleMem flag (PreProcessSubmit does not touch this state). -/
inductive QueueContext.Reachable : QueueContext → Prop
  | init : QueueContext.Reachable QueueContext.initial
  | create (env : MemMgrEnv) (need : Bool) {qc : QueueContext} :
      QueueContext.Reachable qc →
      QueueContext.Reachable (qc.CreateTimestampMem env need).ctx

/-- Modelled from the spec (section 3, Submit Info): the input queue-level
submission request; its definition is not under src and the base
PreProcessSubmit never reads it, so it is embedded as an opaque payload. -/
structure SubmitInfo where
  payload : Nat
  deriving DecidableEq

/-- The InternalSubmitInfo fields written by the base PreProcessSubmit
(queueContext.cpp lines 60-62); the record's own definition is not under src,
so per the spec (section 3) it carries the preamble and postamble stream
counts and the paging-fence value. -/
structure InternalSubmitInfo where
  numPreambleCmdStreams : Nat
  numPostambleCmdStreams : Nat
  pagingFence : Nat
  deriving DecidableEq

/-- QueueContext::PreProcessSubmit, translated from queueContext.cpp lines
56-65: writes zero to the preamble stream count, postamble stream count and
paging fence of the output record and returns Success.  The prior contents of
the output record and the input submission are taken as arguments to show the
result depends on neither. -/
def QueueContext.PreProcessSubmit (qc : QueueContext)
    (prior : InternalSubmitInfo) (submitInfo : SubmitInfo) :
    InternalSubmitInfo × Result :=
  ({ prior with
      numPreambleCmdStreams := 0
      numPostambleCmdStreams := 0
      pagingFence := 0 },
   Result.Success)

/-- Pipeline kinds: separate concrete implementations support compute or
graphics pipelines (palPipeline.h IPipeline brief). -/
inductive PipelineKind
  | Compute
  | Graphics
  deriving DecidableEq

/-- Modelled from the spec (section 4.1): a shader library's ABI surface as
far as link compatibility is concerned — its user-data resource mapping and
wavefront width; IShaderLibrary is an external collaborator not under src. -/
structure ShaderLibrary where
  userDataMapping : Nat
  wavefrontWidth : Nat
  deriving DecidableEq

/-- Modelled from the spec (sections 4.1 and 3): the mutable linking state of
a pipeline object — its kind, its own ABI surface, the accumulated list of
linked libraries, and the client stack-size override; the concrete pipeline
classes are not under src. -/
structure PipelineState where
  kind : PipelineKind
  userDataMapping : Nat
  wavefrontWidth : Nat
  linkedLibs : List ShaderLibrary
  stackSizeOverride : Option Nat
  deriving DecidableEq

/-- Modelled from the spec (section 4.1, LinkWithLibraries): a library is
compatible with a pipeline when its user-data mapping and wavefront width
match the pipeline's. -/
def PipelineState.compatibleWith (p : PipelineState) (lib : ShaderLibrary) :
    Bool :=
  p.userDataMapping == lib.userDataMapping &&
    p.wavefrontWidth == lib.wavefrontWidth

/-- Modelled from the spec: IPipeline::LinkWithLibraries is pure virtual in
src/inc/core/palPipeline.h (lines 556-580); per its documented contract it
fails ErrorUnavailable on a graphics pipeline, fails ErrorBadPipelineData if
any listed library is incompatible (before mutating any state), and otherwise
appends the libraries to the accumulated link state without invalidating
earlier links; a successful link invalidates the stack-size override (spec
section 4.1, SetStackSizeInBytes). -/
def PipelineState.LinkWithLibraries (p : PipelineState)
    (libs : List ShaderLibrary) : PipelineState × Result :=
  if p.kind = PipelineKind.Graphics then
    (p, Result.ErrorUnavailable)
  else if libs.all p.compatibleWith then
    ({ p with linkedLibs := p.linkedLibs ++ libs, stackSizeOverride := none },
     Result.Success)
  else
    (p, Result.ErrorBadPipelineData)

/-- Modelled from the spec: IPipeline::SetStackSizeInBytes is pure virtual in
src/inc/core/palPipeline.h (lines 582-594); it records the client's
stack-size override. -/
def PipelineState.SetStackSizeInBytes (p : PipelineState) (n : Nat) :
    PipelineState :=
  { p with stackSizeOverride := some n }

/-- Modelled from the spec: IPipeline::QueryAllocationInfo is pure virtual in
src/inc/core/palPipeline.h (lines 476-490); per its documented contract it is
embedded over the pipeline's allocation-info list (entries as opaque Nat).
pNumEntries is the count pointer (none = nullptr), listProvided says whether
pAllocInfoList is non-null.  Returns the Result, the value stored through the
count pointer on return, and the entries written to the caller's list. -/
def QueryAllocationInfo (allocs : List Nat) (pNumEntries : Option Nat)
    (listProvided : Bool) : Result × Option Nat × List Nat :=
  match pNumEntries with
  | none => (Result.ErrorInvalidPointer, none, [])
  | some n =>
    if listProvided then
      if n = allocs.length then
        (Result.Success, some allocs.length, allocs)
      else
        (Result.ErrorInvalidValue, some n, [])
    else
      (Result.Success, some allocs.length, [])

/-- A pipeline object: the private m_pClientData pointer (palPipeline.h line
631, embedded as Option Nat with none for nullptr) together with its linking
state. -/
structure Pipeline where
  clientData : Option Nat
  state : PipelineState
  deriving DecidableEq

/-- The IPipeline constructor (palPipeline.h line 620): m_pClientData starts
as nullptr. -/
def pipelineInit (st : PipelineState) : Pipeline :=
  { clientData := none, state := st }

/-- IPipeline::GetClientData (palPipeline.h line 605): returns the client-data
pointer. -/
def Pipeline.GetClientData (p : Pipeline) : Option Nat :=
  p.clientData

/-- IPipeline::SetClientData (palPipeline.h lines 611-615): stores the
client-data pointer. -/
def Pipeline.SetClientData (p : Pipeline) (d : Option Nat) : Pipeline :=
  { p with clientData := d }

/-- The mutating pipeline operations.  m_pClientData is private to IPipeline
(palPipeline.h lines 627-631), so the virtual operations can only act on the
rest of the state; their state action is the spec-modelled one above. -/
inductive PipelineOp
  | setClientData (d : Option Nat)
  | linkWithLibraries (libs : List ShaderLibrary)
  | setStackSizeInBytes (n : Nat)
  deriving DecidableEq

/-- Recognizer for the SetClientData operation. -/
def PipelineOp.isSetClientData : PipelineOp → Bool
  | PipelineOp.setClientData _ => true
  | _ => false

/-- Apply one pipeline operation to a pipeline object. -/
def Pipeline.applyOp (p : Pipeline) : PipelineOp → Pipeline
  | PipelineOp.setClientData d => p.SetClientData d
  | PipelineOp.linkWithLibraries libs =>
      { p with state := (p.state.LinkWithLibraries libs).1 }
  | PipelineOp.setStackSizeInBytes n =>
      { p with state := p.state.SetStackSizeInBytes n }

/-- Apply a sequence of pipeline operations in order. -/
def Pipeline.applyOps (p : Pipeline) (ops : List PipelineOp) : Pipeline :=
  ops.foldl Pipeline.applyOp p

/-- Bytes inside the 64-bit store range read back as zero. -/
theorem write64zero_eq_zero (m : Nat → Nat) (o i : Nat) (h1 : o ≤ i)
    (h2 : i < o + 8) : write64zero m o i = 0 := by
  unfold write64zero
  exact if_pos ⟨h1, h2⟩

/-- Bytes inside the 32-bit store range read back as zero. -/
theorem write32zero_eq_zero (m : Nat → Nat) (o i : Nat) (h1 : o ≤ i)
    (h2 : i < o + 4) : write32zero m o i = 0 := by
  unfold write32zero
  exact if_pos ⟨h1, h2⟩

/-- The low 4-byte half of a 64-bit zero store reads as zero. -/
theorem read32_write64zero_lo (m : Nat → Nat) (o : Nat) :
    read32 (write64zero m o) o = 0 := by
  unfold read32
  rw [write64zero_eq_zero m o o (by omega) (by omega),
      write64zero_eq_zero m o (o + 1) (by omega) (by omega),
      write64zero_eq_zero m o (o + 2) (by omega) (by omega),
      write64zero_eq_zero m o (o + 3) (by omega) (by omega)]
  norm_num

/-- The high 4-byte half of a 64-bit zero store reads as zero. -/
theorem read32_write64zero_hi (m : Nat → Nat) (o : Nat) :
    read32 (write64zero m o) (o + 4) = 0 := by
  unfold read32
  rw [write64zero_eq_zero m o (o + 4) (by omega) (by omega),
      write64zero_eq_zero m o (o + 4 + 1) (by omega) (by omega),
      write64zero_eq_zero m o (o + 4 + 2) (by omega) (by omega),
      write64zero_eq_zero m o (o + 4 + 3) (by omega) (by omega)]
  norm_num

/-- The 4-byte range of a 32-bit zero store reads as zero. -/
theorem read32_write32zero (m : Nat → Nat) (o : Nat) :
    read32 (write32zero m o) o = 0 := by
  unfold read32
  rw [write32zero_eq_zero m o o (by omega) (by omega),
      write32zero_eq_zero m o (o + 1) (by omega) (by omega),
      write32zero_eq_zero m o (o + 2) (by omega) (by omega),
      write32zero_eq_zero m o (o + 3) (by omega) (by omega)]
  norm_num

/-- An environment in which the allocation, map and unmap calls all
succeed. -/
def envAllOk : MemMgrEnv :=
  { allocResult := Result.Success
    allocHandle := 7
    allocOffset := 16
    initMem := fun _ => 255
    mapResult := Result.Success
    unmapResult := Result.Success }

/-- An environment in which the allocation succeeds but the Map call fails. -/
def envMapFail : MemMgrEnv :=
  { allocResult := Result.Success
    allocHandle := 3
    allocOffset := 8
    initMem := fun _ => 9
    mapResult := Result.ErrorUnknown
    unmapResult := Result.Success }

/-- An environment in which the allocation itself fails. -/
def envAllocFail : MemMgrEnv :=
  { allocResult := Result.ErrorOutOfGpuMemory
    allocHandle := 0
    allocOffset := 0
    initMem := fun _ => 0
    mapResult := Result.Success
    unmapResult := Result.Success }

/-- C1: for every value of needWaitForIdleMem, after a successful
CreateTimestampMem the exclusive-exec timestamp is bound to the new
allocation at its base offset (allocation-relative offset 0); when
needWaitForIdleMem is true the wait-for-idle timestamp is bound at offset 4
within the same allocation; the call trace is one map, one zero store (64-bit
if both timestamps exist, else 32-bit) and one unmap after the single
allocation; and both 4-byte halves of the timestamp memory read as zero. -/
theorem createTimestampMem_success_state (qc : QueueContext) (env : MemMgrEnv)
    (need : Bool)
    (h : (qc.CreateTimestampMem env need).res = Result.Success) :
    (qc.CreateTimestampMem env need).ctx.exclusiveExecTs =
      ⟨some env.allocHandle, env.allocOffset⟩ ∧
    (need = true → (qc.CreateTimestampMem env need).ctx.waitForIdleTs =
      ⟨some env.allocHandle, env.allocOffset + 4⟩) ∧
    (qc.CreateTimestampMem env need).events =
      [TsEvent.alloc (timestampCreateInfo need) timestampInternalCreateInfo,
       TsEvent.map, if need then TsEvent.write64 else TsEvent.write32,
       TsEvent.unmap] ∧
    read32 (qc.CreateTimestampMem env need).mem env.allocOffset = 0 ∧
    (need = true →
      read32 (qc.CreateTimestampMem env need).mem (env.allocOffset + 4) = 0) := by
  by_cases hA : env.allocResult = Result.Success
  · by_cases hM : env.mapResult = Result.Success
    · cases need <;>
        simp [QueueContext.CreateTimestampMem, hA, hM, BoundGpuMemory.Update,
          read32_write32zero, read32_write64zero_lo, read32_write64zero_hi]
    · simp [QueueContext.CreateTimestampMem, hA, hM] at h
  · simp [QueueContext.CreateTimestampMem, hA] at h

/-- Witness for C1 at a concrete all-success environment with both timestamps
requested. -/
theorem createTimestampMem_success_state_witness :
    (QueueContext.initial.CreateTimestampMem envAllOk true).res =
      Result.Success ∧
    ((QueueContext.initial.CreateTimestampMem envAllOk true).ctx.exclusiveExecTs =
        ⟨some envAllOk.allocHandle, envAllOk.allocOffset⟩ ∧
     (true = true →
        (QueueContext.initial.CreateTimestampMem envAllOk true).ctx.waitForIdleTs =
          ⟨some envAllOk.allocHandle, envAllOk.allocOffset + 4⟩) ∧
     (QueueContext.initial.CreateTimestampMem envAllOk true).events =
       [TsEvent.alloc (timestampCreateInfo true) timestampInternalCreateInfo,
        TsEvent.map, if true then TsEvent.write64 else TsEvent.write32,
        TsEvent.unmap] ∧
     read32 (QueueContext.initial.CreateTimestampMem envAllOk true).mem
       envAllOk.allocOffset = 0 ∧
     (true = true →
        read32 (QueueContext.initial.CreateTimestampMem envAllOk true).mem
          (envAllOk.allocOffset + 4) = 0)) :=
  ⟨by rfl,
   createTimestampMem_success_state QueueContext.initial envAllOk true (by rfl)⟩

/-- A QueueContext with both timestamps bound within one allocation. -/
def qcBothBound : QueueContext :=
  ⟨⟨some 5, 32⟩, ⟨some 5, 36⟩⟩

/-- C2: destroying a QueueContext whose exclusive-exec timestamp is bound
makes exactly one FreeGpuMem call, whether or not the wait-for-idle timestamp
is also bound, and leaves both bindings unbound; destroying one with neither
timestamp bound makes no FreeGpuMem call. -/
theorem destroy_frees_exactly_once (qc : QueueContext) :
    (qc.exclusiveExecTs.IsBound = true →
      (qc.destroy).freeCalls.length = 1 ∧
      (qc.destroy).ctx.exclusiveExecTs.IsBound = false ∧
      (qc.destroy).ctx.waitForIdleTs.IsBound = false) ∧
    ((qc.exclusiveExecTs.IsBound = false ∧ qc.waitForIdleTs.IsBound = false) →
      (qc.destroy).freeCalls = []) := by
  obtain ⟨⟨em, eo⟩, ⟨wm, wo⟩⟩ := qc
  cases em <;> cases wm <;>
    simp [QueueContext.destroy, BoundGpuMemory.IsBound, BoundGpuMemory.Update]

/-- Witness for C2 at a concrete QueueContext with both timestamps bound. -/
theorem destroy_frees_exactly_once_witness :
    qcBothBound.exclusiveExecTs.IsBound = true ∧
    (qcBothBound.destroy.freeCalls.length = 1 ∧
     qcBothBound.destroy.ctx.exclusiveExecTs.IsBound = false ∧
     qcBothBound.destroy.ctx.waitForIdleTs.IsBound = false) :=
  ⟨by decide, (destroy_frees_exactly_once qcBothBound).1 (by decide)⟩

/-- C3: on every QueueContext state reachable through its operations, a bound
wait-for-idle timestamp implies a bound exclusive-exec timestamp, so the
destructor's PAL_ASSERT of that implication never fires. -/
theorem reachable_wait_implies_exclusive (qc : QueueContext)
    (h : qc.Reachable) :
    (qc.waitForIdleTs.IsBound = true → qc.exclusiveExecTs.IsBound = true) ∧
    qc.destroyAssertOk := by
  have key : qc.waitForIdleTs.IsBound = true →
      qc.exclusiveExecTs.IsBound = true := by
    induction h with
    | init => simp [QueueContext.initial, BoundGpuMemory.IsBound]
    | create env need hqc ih =>
      by_cases hA : env.allocResult = Result.Success
      · by_cases hM : env.mapResult = Result.Success
        · cases need <;>
            simp [QueueContext.CreateTimestampMem, hA, hM,
              BoundGpuMemory.Update, BoundGpuMemory.IsBound]
        · cases need <;>
            simp [QueueContext.CreateTimestampMem, hA, hM,
              BoundGpuMemory.Update, BoundGpuMemory.IsBound]
      · simpa [QueueContext.CreateTimestampMem, hA] using ih
  exact ⟨key, key⟩

/-- Witness for C3 at the state reached by one successful CreateTimestampMem
from a fresh QueueContext. -/
theorem reachable_wait_implies_exclusive_witness :
    ((QueueContext.initial.CreateTimestampMem envAllOk true).ctx.waitForIdleTs.IsBound = true →
      (QueueContext.initial.CreateTimestampMem envAllOk true).ctx.exclusiveExecTs.IsBound = true) ∧
    (QueueContext.initial.CreateTimestampMem envAllOk true).ctx.destroyAssertOk :=
  reachable_wait_implies_exclusive _
    (QueueContext.Reachable.create envAllOk true QueueContext.Reachable.init)

/-- C4: CreateTimestampMem propagates the failing collaborator's Result code
unchanged — the allocation result when allocation fails, the map result when
mapping fails, the unmap result otherwise — and the bindings established
before the failure point stay exactly as set: an allocation failure leaves
the whole state untouched, while a map failure (after a successful
allocation) leaves the exclusive-exec binding and, when requested, the
wait-for-idle binding in place. -/
theorem createTimestampMem_failure_propagation (qc : QueueContext)
    (env : MemMgrEnv) (need : Bool) :
    (env.allocResult ≠ Result.Success →
      (qc.CreateTimestampMem env need).res = env.allocResult ∧
      (qc.CreateTimestampMem env need).ctx = qc) ∧
    (env.allocResult = Result.Success → env.mapResult ≠ Result.Success →
      (qc.CreateTimestampMem env need).res = env.mapResult ∧
      (qc.CreateTimestampMem env need).ctx.exclusiveExecTs =
        ⟨some env.allocHandle, env.allocOffset⟩ ∧
      (qc.CreateTimestampMem env need).ctx.waitForIdleTs =
        (if need then (⟨some env.allocHandle, env.allocOffset + 4⟩ : BoundGpuMemory)
         else qc.waitForIdleTs)) ∧
    (env.allocResult = Result.Success → env.mapResult = Result.Success →
      (qc.CreateTimestampMem env need).res = env.unmapResult ∧
      (qc.CreateTimestampMem env need).ctx.exclusiveExecTs =
        ⟨some env.allocHandle, env.allocOffset⟩ ∧
      (qc.CreateTimestampMem env need).ctx.waitForIdleTs =
        (if need then (⟨some env.allocHandle, env.allocOffset + 4⟩ : BoundGpuMemory)
         else qc.waitForIdleTs)) := by
  refine ⟨?_, ?_, ?_⟩
  · intro hA
    simp [QueueContext.CreateTimestampMem, hA]
  · intro hA hM
    cases need <;>
      simp [QueueContext.CreateTimestampMem, hA, hM, BoundGpuMemory.Update]
  · intro hA hM
    cases need <;>
      simp [QueueContext.CreateTimestampMem, hA, hM, BoundGpuMemory.Update]

/-- Witness for C4 at a concrete environment whose Map call fails after a
successful allocation, with the wait-for-idle timestamp requested. -/
theorem createTimestampMem_failure_propagation_witness :
    envMapFail.allocResult = Result.Success ∧
    envMapFail.mapResult ≠ Result.Success ∧
    ((QueueContext.initial.CreateTimestampMem envMapFail true).res =
       envMapFail.mapResult ∧
     (QueueContext.initial.CreateTimestampMem envMapFail true).ctx.exclusiveExecTs =
       ⟨some envMapFail.allocHandle, envMapFail.allocOffset⟩ ∧
     (QueueContext.initial.CreateTimestampMem envMapFail true).ctx.waitForIdleTs =
       (if true then (⟨some envMapFail.allocHandle, envMapFail.allocOffset + 4⟩ : BoundGpuMemory)
        else QueueContext.initial.waitForIdleTs)) :=
  ⟨by rfl, by decide,
   (createTimestampMem_failure_propagation QueueContext.initial envMapFail true).2.1
     (by rfl) (by decide)⟩

/-- C5: every CreateTimestampMem call makes exactly one allocation request,
whose fields are 4-byte alignment, size 8 bytes when needWaitForIdleMem is
true and 4 when false, the two-entry heap list ordered device-local then
host-visible-uncached, normal priority, default virtual-address range, and
the always-resident flag. -/
theorem createTimestampMem_alloc_request (qc : QueueContext) (env : MemMgrEnv)
    (need : Bool) :
    ((qc.CreateTimestampMem env need).events.filter TsEvent.isAlloc) =
      [TsEvent.alloc (timestampCreateInfo need) timestampInternalCreateInfo] ∧
    (timestampCreateInfo need).size = (if need then 8 else 4) ∧
    (timestampCreateInfo need).alignment = 4 ∧
    (timestampCreateInfo need).heaps =
      [GpuHeap.GpuHeapLocal, GpuHeap.GpuHeapGartUswc] ∧
    (timestampCreateInfo need).heapCount = 2 ∧
    (timestampCreateInfo need).priority = GpuMemPriority.Normal ∧
    (timestampCreateInfo need).vaRange = VaRange.Default ∧
    timestampInternalCreateInfo.alwaysResident = true := by
  refine ⟨?_, rfl, rfl, rfl, rfl, rfl, rfl, rfl⟩
  by_cases hA : env.allocResult = Result.Success
  · by_cases hM : env.mapResult = Result.Success
    · cases need <;>
        simp [QueueContext.CreateTimestampMem, hA, hM, List.filter,
          TsEvent.isAlloc]
    · simp [QueueContext.CreateTimestampMem, hA, hM, List.filter,
        TsEvent.isAlloc]
  · simp [QueueContext.CreateTimestampMem, hA, List.filter, TsEvent.isAlloc]

/-- C6: the base PreProcessSubmit writes zero preamble streams, zero
postamble streams and a zero paging fence into the output record, fully
determining it, and returns Success; its output does not depend on the input
submission. -/
theorem preProcessSubmit_noop (qc : QueueContext) (prior : InternalSubmitInfo)
    (s1 s2 : SubmitInfo) :
    qc.PreProcessSubmit prior s1 =
      ({ numPreambleCmdStreams := 0
         numPostambleCmdStreams := 0
         pagingFence := 0 }, Result.Success) ∧
    qc.PreProcessSubmit prior s1 = qc.PreProcessSubmit prior s2 :=
  ⟨rfl, rfl⟩

/-- C7: QueryAllocationInfo follows the two-call size-query contract: a null
count pointer fails ErrorInvalidPointer with no outputs written; a null list
pointer reports the allocation count with Success ignoring the count's input
value; a non-null list with a count input different from the actual number of
allocations fails ErrorInvalidValue writing no entries and leaving the count
value as passed; a matching count succeeds and returns exactly the
allocation entries. -/
theorem queryAllocationInfo_contract (allocs : List Nat) (n : Nat) (b : Bool) :
    QueryAllocationInfo allocs none b =
      (Result.ErrorInvalidPointer, none, []) ∧
    QueryAllocationInfo allocs (some n) false =
      (Result.Success, some allocs.length, []) ∧
    (n ≠ allocs.length →
      QueryAllocationInfo allocs (some n) true =
        (Result.ErrorInvalidValue, some n, [])) ∧
    (n = allocs.length →
      QueryAllocationInfo allocs (some n) true =
        (Result.Success, some allocs.length, allocs)) := by
  refine ⟨rfl, rfl, ?_, ?_⟩ <;> intro h <;> simp [QueryAllocationInfo, h]

/-- Witness for C7 at the spec's example: a pipeline with 3 allocations,
queried with count 5, count 3 and a null list pointer. -/
theorem queryAllocationInfo_contract_witness :
    (5 ≠ [10, 20, 30].length) ∧
    (QueryAllocationInfo [10, 20, 30] (some 5) true =
       (Result.ErrorInvalidValue, some 5, []) ∧
     QueryAllocationInfo [10, 20, 30] (some 3) true =
       (Result.Success, some 3, [10, 20, 30]) ∧
     QueryAllocationInfo [10, 20, 30] none true =
       (Result.ErrorInvalidPointer, none, [])) :=
  ⟨by decide,
   (queryAllocationInfo_contract [10, 20, 30] 5 true).2.2.1 (by decide),
   (queryAllocationInfo_contract [10, 20, 30] 3 true).2.2.2 (by rfl),
   (queryAllocationInfo_contract [10, 20, 30] 5 true).1⟩

/-- A graphics-kind pipeline state with one library already linked. -/
def graphicsPipelineState : PipelineState :=
  { kind := PipelineKind.Graphics
    userDataMapping := 1
    wavefrontWidth := 64
    linkedLibs := [⟨1, 64⟩]
    stackSizeOverride := none }

/-- A compute-kind pipeline state with no library linked yet. -/
def computePipelineState : PipelineState :=
  { kind := PipelineKind.Compute
    userDataMapping := 1
    wavefrontWidth := 64
    linkedLibs := []
    stackSizeOverride := none }

/-- C8: every failing LinkWithLibraries call leaves the accumulated link
state unchanged — on a graphics-kind pipeline it fails ErrorUnavailable
returning the state untouched, and on a compute pipeline with any
incompatible library in the list it fails ErrorBadPipelineData before any
state is mutated; a successful call is additive, appending the new libraries
after the previously linked ones without disturbing them. -/
theorem linkWithLibraries_failure_preserves_state (p : PipelineState)
    (libs : List ShaderLibrary) :
    (p.kind = PipelineKind.Graphics →
      p.LinkWithLibraries libs = (p, Result.ErrorUnavailable)) ∧
    (p.kind = PipelineKind.Compute →
      (∃ lib ∈ libs, p.compatibleWith lib = false) →
      p.LinkWithLibraries libs = (p, Result.ErrorBadPipelineData)) ∧
    ((p.LinkWithLibraries libs).2 = Result.Success →
      (p.LinkWithLibraries libs).1.linkedLibs = p.linkedLibs ++ libs) := by
  refine ⟨?_, ?_, ?_⟩
  · intro hg
    simp [PipelineState.LinkWithLibraries, hg]
  · rintro hk ⟨lib, hmem, hinc⟩
    have hall : ¬ (libs.all p.compatibleWith = true) := by
      simp only [List.all_eq_true]
      intro hAll
      have hlib := hAll lib hmem
      rw [hinc] at hlib
      exact Bool.false_ne_true hlib
    simp [PipelineState.LinkWithLibraries, hk, hall]
  · intro h
    by_cases hg : p.kind = PipelineKind.Graphics
    · simp [PipelineState.LinkWithLibraries, hg] at h
    · by_cases hall : libs.all p.compatibleWith = true
      · simp [PipelineState.LinkWithLibraries, hg, hall]
      · simp [PipelineState.LinkWithLibraries, hg, hall] at h

/-- Witness for C8 at a concrete graphics pipeline with prior link state. -/
theorem linkWithLibraries_failure_preserves_state_witness :
    graphicsPipelineState.kind = PipelineKind.Graphics ∧
    graphicsPipelineState.LinkWithLibraries [⟨2, 32⟩] =
      (graphicsPipelineState, Result.ErrorUnavailable) :=
  ⟨rfl,
   (linkWithLibraries_failure_preserves_state graphicsPipelineState
     [⟨2, 32⟩]).1 rfl⟩

/-- C9: when the allocation call itself fails inside CreateTimestampMem,
neither timestamp binding is modified — the QueueContext is returned exactly
as it was — and the allocation failure code is the returned Result; only a
map or unmap failure after a successful allocation can leave a partially
bound state. -/
theorem createTimestampMem_allocFailure_no_binding (qc : QueueContext)
    (env : MemMgrEnv) (need : Bool)
    (h : env.allocResult ≠ Result.Success) :
    (qc.CreateTimestampMem env need).ctx = qc ∧
    (qc.CreateTimestampMem env need).res = env.allocResult := by
  simp [QueueContext.CreateTimestampMem, h]

/-- Witness for C9 at a concrete environment whose allocation fails against a
fresh QueueContext. -/
theorem createTimestampMem_allocFailure_no_binding_witness :
    envAllocFail.allocResult ≠ Result.Success ∧
    ((QueueContext.initial.CreateTimestampMem envAllocFail true).ctx =
       QueueContext.initial ∧
     (QueueContext.initial.CreateTimestampMem envAllocFail true).res =
       envAllocFail.allocResult) :=
  ⟨by decide,
   createTimestampMem_allocFailure_no_binding QueueContext.initial envAllocFail
     true (by decide)⟩

/-- Applying any sequence of non-SetClientData pipeline operations leaves the
client-data pointer unchanged (m_pClientData is private to the interface
class). -/
theorem applyOps_clientData_invariant (ops : List PipelineOp) :
    ∀ p : Pipeline, (∀ op ∈ ops, op.isSetClientData = false) →
      (p.applyOps ops).GetClientData = p.GetClientData := by
  induction ops with
  | nil =>
    intro p h
    rfl
  | cons op rest ih =>
    intro p h
    have hop : op.isSetClientData = false := h op (List.mem_cons_self op rest)
    have hrest : ∀ o ∈ rest, o.isSetClientData = false :=
      fun o ho => h o (List.mem_cons_of_mem op ho)
    have step : (p.applyOp op).GetClientData = p.GetClientData := by
      cases op with
      | setClientData d => simp [PipelineOp.isSetClientData] at hop
      | linkWithLibraries libs => rfl
      | setStackSizeInBytes n => rfl
    calc (p.applyOps (op :: rest)).GetClientData
        = ((p.applyOp op).applyOps rest).GetClientData := rfl
      _ = (p.applyOp op).GetClientData := ih (p.applyOp op) hrest
      _ = p.GetClientData := step

/-- C10: GetClientData returns the null pointer on a freshly constructed
pipeline; after SetClientData with d, GetClientData returns exactly d, and it
keeps returning d across any sequence of the other pipeline operations until
the next SetClientData. -/
theorem clientData_accessor_spec (st : PipelineState) (p : Pipeline)
    (d : Option Nat) (ops : List PipelineOp)
    (h : ∀ op ∈ ops, op.isSetClientData = false) :
    (pipelineInit st).GetClientData = none ∧
    (p.SetClientData d).GetClientData = d ∧
    ((p.SetClientData d).applyOps ops).GetClientData = d := by
  refine ⟨rfl, rfl, ?_⟩
  rw [applyOps_clientData_invariant ops (p.SetClientData d) h]
  rfl

/-- Witness for C10: a concrete compute pipeline, client data 42, followed by
a link and a stack-size call. -/
theorem clientData_accessor_spec_witness :
    (∀ op ∈ [PipelineOp.linkWithLibraries [⟨1, 64⟩],
             PipelineOp.setStackSizeInBytes 256],
        op.isSetClientData = false) ∧
    ((pipelineInit computePipelineState).GetClientData = none ∧
     ((pipelineInit computePipelineState).SetClientData (some 42)).GetClientData =
       some 42 ∧
     (((pipelineInit computePipelineState).SetClientData (some 42)).applyOps
        [PipelineOp.linkWithLibraries [⟨1, 64⟩],
         PipelineOp.setStackSizeInBytes 256]).GetClientData = some 42) :=
  ⟨by decide,
   clientData_accessor_spec computePipelineState
     (pipelineInit computePipelineState) (some 42)
     [PipelineOp.linkWithLibraries [⟨1, 64⟩],
      PipelineOp.setStackSizeInBytes 256] (by decide)⟩
